import Mathlib

/-!
Verification of `wadebug/wa_actions/log_utils.py` (log-collection orchestration).

The module under study is a single Python file.  Its external collaborators
(docker runtime access via `docker_utils`, the `wadebug.exceptions` classes,
configuration loading via `Config`, the `WABizAPI` HTTP client, and the Python
standard library) are not part of the source; they are modelled as parameters
(an `Env` structure of external behaviours) or, where their behaviour decides a
claim, by definitions modelled from the specification and marked as such.

Python exceptions are modelled by the inductive `PyExn`; fallible calls return
`Except PyExn α`.  `datetime` values are modelled as integer epoch seconds
(`Int`); `timedelta(hours=h)` is `h * 3600` seconds.  Timezone handling
(`.replace(tzinfo=tz)` / `datetime.now(tz)`) is absorbed into the abstract
`strptime` parse function and the `now` instant, both of which already denote
timezone-aware instants as epoch seconds.
-/

/-- Modelled from the spec: the `wadebug.exceptions` module is absent from the
source tree.  Per the spec's error-handling design, `FileAccessError`,
`LogsNotCompleteError` and the parse failure are distinct error kinds; none of
them is an `OSError` (an `OSError` carries an errno).  `keyError` and
`notFound` model Python `KeyError` and `docker.errors.NotFound`.  All
constructors model subclasses of Python `Exception`. -/
inductive PyExn where
  | notFound
  | keyError
  | osError (errno : Nat)
  | fileAccessError (msg : String)
  | parseError
  | logsNotCompleteError (msg : String)
  | other (msg : String)
deriving DecidableEq, Repr

/-- A docker container handle; only its name is observed by the module. -/
structure Container where
  name : String
deriving DecidableEq, Repr

/-- A WA container wrapper: the underlying container plus its role
classification (`is_coreapp()` / `is_webapp()` modelled as fields). -/
structure WAContainer where
  container : Container
  is_coreapp : Bool
  is_webapp : Bool
deriving DecidableEq, Repr

/-! Module-level constants of `log_utils.py`. -/

def OUTPUT_FOLDER : String := "wadebug_logs"

def SUPPORT_INFO_LOG_FILE : String := "support-info.log"

def WEB_LOG_PATH : String := "/var/log/whatsapp"

def WEB_LOG_FILE : String := "web.log"

def WEB_ERROR_LOG_PATH : String := "/var/log/lighttpd"

def WEB_ERROR_LOG_FILE : String := "error.log"

def CONTAINER_LOG_DURATION_HOURS : Int := 3

/-- Python `b.startswith("/")`, on the first character. -/
def starts_with_slash (s : String) : Bool :=
  match s.data with
  | [] => false
  | c :: _ => c = '/'

/-- Python `a.endswith("/")`, on the last character. -/
def ends_with_slash (s : String) : Bool :=
  match s.data.getLast? with
  | some c => c = '/'
  | none => false

/-- `os.path.join(a, b)` for one level: an absolute second component replaces
the first, otherwise a single separator is inserted unless `a` already ends
with one. -/
def os_path_join (a b : String) : String :=
  if starts_with_slash b then b
  else if ends_with_slash a then a ++ b
  else a ++ "/" ++ b

/-- Python truthiness of an optional string (`None` and `""` are falsy). -/
def py_truthy_str : Option String → Bool
  | none => false
  | some s => s != ""

/-- `timedelta(hours=h)` in seconds. -/
def timedelta_hours (h : Int) : Int := h * 3600

/-- `get_container_logs_start_end_datetimes(start_dt_str, dt_format, tz, duration_hours)`.

`strptime s fmt` models `datetime.strptime(s, fmt).replace(tzinfo=tz)` as an
epoch instant, returning `none` exactly when `s` does not match `fmt`
(`strptime` raises `ValueError`, the spec's `ParseError`); `now` models
`datetime.now(tz)`.  The Python guard is `if start_dt_str:` — truthiness, so
`None` and the empty string both select the "no anchor" branch. -/
def get_container_logs_start_end_datetimes
    (strptime : String → String → Option Int) (now : Int)
    (start_dt_str : Option String) (dt_format : String)
    (duration_hours : Int) : Except PyExn (Int × Int) :=
  let logs_duration := timedelta_hours duration_hours
  match start_dt_str with
  | some s =>
      if s != "" then
        match strptime s dt_format with
        | some start_dt => .ok (start_dt, start_dt + logs_duration)
        | none => .error .parseError
      else .ok (now - logs_duration, now)
  | none => .ok (now - logs_duration, now)

/-! ### Access guard

`check_access` touches the filesystem through `os.access`, `os.getcwd` and
`os.makedirs`; the relevant filesystem state is modelled by `FS`. -/

/-- The filesystem state visible to `check_access`: whether the current
working directory is readable, whether the output directory already exists,
and — when it does not exist — the errno with which `os.makedirs` would fail
(`none` meaning creation succeeds). -/
structure FS where
  cwdReadable : Bool
  outputDirExists : Bool
  mkdirFailErrno : Option Nat
deriving DecidableEq, Repr

def EEXIST : Nat := 17

/-- `os.makedirs(path)`: raises `OSError` with `errno.EEXIST` when the
directory already exists; otherwise fails with the state's pending errno or
succeeds, creating the directory. -/
def os_makedirs (fs : FS) : Except Nat FS :=
  if fs.outputDirExists then .error EEXIST
  else
    match fs.mkdirFailErrno with
    | some er => .error er
    | none => .ok { fs with outputDirExists := true }

/-- `check_access()`.  The `try` block covers the readability test, the
`os.makedirs` call and the `raise FileAccessError("...Cannot read...")`
statement, but the `except OSError` clause catches only `OSError`; the
`FileAccessError` raised inside the `try` is not an `OSError` (see `PyExn`)
and so propagates.  An `OSError` whose errno is `EEXIST` is swallowed
(treated as success). -/
def check_access (fs : FS) : Except PyExn FS :=
  if fs.cwdReadable then
    match os_makedirs fs with
    | .ok fs2 => .ok fs2
    | .error er =>
        if er != EEXIST then
          .error (.fileAccessError "Access error:  Cannot write logs to current directory")
        else .ok fs
  else .error (.fileAccessError "Access error:  Cannot read from current directory")

/-! ### External collaborators

The docker runtime, filesystem writes, configuration and the support-info API
are external interfaces (spec section 6).  `Env` packages one behaviour of
each; every fallible call returns `Except PyExn`. -/

/-- One behaviour of the external world.  JSON-serializable structures
(inspect results, support-info content, the configuration mapping, the API
client) are opaque and modelled as strings; `jsonDumps v i` models
`json.dumps(v, indent=i)`. -/
structure Env where
  getWaContainers : List WAContainer
  getContainerLogs : Container → Int → Int → Except PyExn String
  writeToFileInBinary : String → String → Except PyExn Unit
  getInspectResult : Container → Except PyExn String
  jsonDumps : String → Nat → String
  writeToFile : String → String → Except PyExn Unit
  getCoreDumpLogs : Container → Except PyExn String
  getArchiveFromContainer : Container → String → String → Except PyExn String
  configValues : Except PyExn (Option String)
  configGetWebapp : String → Option String
  wabizApi : Option String → Except PyExn String
  apiGetSupportInfo : String → Except PyExn String
  strptime : String → String → Option Int
  now : Int
  makeArchive : Except PyExn Unit
  openArchive : Except PyExn String

/-- `get_container_logs(wa_container, logs_start_dt, logs_end_dt)`: fetch the
raw logs in the window (timestamps already integer epoch seconds in the
model, matching `int(dt.timestamp())`), write them in binary, return the
file name. -/
def get_container_logs (env : Env) (wa_container : WAContainer)
    (logs_start_dt logs_end_dt : Int) : Except PyExn String := do
  let container := wa_container.container
  let container_logs ← env.getContainerLogs container logs_start_dt logs_end_dt
  let log_filename := os_path_join OUTPUT_FOLDER (container.name ++ "-container.log")
  let _ ← env.writeToFileInBinary log_filename container_logs
  pure log_filename

/-- `get_container_inspect_logs(wa_container)`: fetch the inspection
snapshot, serialize with `json.dumps(-, indent=1)`, write, return the file
name. -/
def get_container_inspect_logs (env : Env) (wa_container : WAContainer) :
    Except PyExn String := do
  let container := wa_container.container
  let inspect_log_filename := os_path_join OUTPUT_FOLDER (container.name ++ "-inspect.log")
  let inspect_result ← env.getInspectResult container
  let _ ← env.writeToFile inspect_log_filename (env.jsonDumps inspect_result 1)
  pure inspect_log_filename

/-- `get_corecontainer_coredumps_logs(wa_container)`: for a core-app
container, fetch the core-dump logs (`docker_utils.get_core_dump_logs`,
absent from the source tree, modelled as the arbitrary external call
`env.getCoreDumpLogs`), write them, and return the file name; for a non-core
container, return `None`.  There is no branch that skips the fetch or the
write for a core container. -/
def get_corecontainer_coredumps_logs (env : Env) (wa_container : WAContainer) :
    Except PyExn (Option String) :=
  let container := wa_container.container
  if wa_container.is_coreapp then do
    let core_dump_filename := os_path_join OUTPUT_FOLDER (container.name ++ "-coredump.log")
    let core_dump_results ← env.getCoreDumpLogs container
    let _ ← env.writeToFile core_dump_filename core_dump_results
    pure (some core_dump_filename)
  else .ok none

/-- `copy_additional_logs_for_webcontainer(container, path, file_name)`: the
`try` covers the in-container archive fetch and the file write; only
`KeyError` and `docker.errors.NotFound` are caught (yielding `None`), any
other exception propagates.  The artifact path is
`os.path.join(OUTPUT_FOLDER, "{}-{}".format(container.name, file_name))`. -/
def copy_additional_logs_for_webcontainer (env : Env) (container : Container)
    (path file_name : String) : Except PyExn (Option String) :=
  let body : Except PyExn String := do
    let logs ← env.getArchiveFromContainer container path file_name
    let p := os_path_join OUTPUT_FOLDER (container.name ++ "-" ++ file_name)
    let _ ← env.writeToFile p logs
    pure p
  match body with
  | .ok p => .ok (some p)
  | .error e => if e = .keyError ∨ e = .notFound then .ok none else .error e

/-- `get_webcontainer_logs(wa_container)`: for a web-app container, attempt
the two fixed copies — the general web log with `(WEB_LOG_PATH, WEB_LOG_FILE)`
and the error log with `(WEB_ERROR_LOG_PATH, WEB_ERROR_LOG_PATH)` (the source
passes the path constant, not `WEB_ERROR_LOG_FILE`, as the file name). -/
def get_webcontainer_logs (env : Env) (wa_container : WAContainer) :
    Except PyExn (Option String × Option String) :=
  let container := wa_container.container
  if wa_container.is_webapp then do
    let webapp_log_filename ←
      copy_additional_logs_for_webcontainer env container WEB_LOG_PATH WEB_LOG_FILE
    let webapp_error_log_filename ←
      copy_additional_logs_for_webcontainer env container WEB_ERROR_LOG_PATH WEB_ERROR_LOG_PATH
    pure (webapp_log_filename, webapp_error_log_filename)
  else .ok (none, none)

/-- The body of the `try` in `get_logs` for one container: the list of file
names appended to `log_files` (in order, including those appended before a
later step failed) and the exception, if any, that reached the `except`
clause.  Web artifacts are appended only under the source's guard
`webapp_log is not None and webapp_error_log is not None`. -/
def collect_container (env : Env) (logs_start_dt logs_end_dt : Int)
    (wa_container : WAContainer) : List String × Option PyExn :=
  match get_container_logs env wa_container logs_start_dt logs_end_dt with
  | .error e => ([], some e)
  | .ok container_log_filename =>
  match get_container_inspect_logs env wa_container with
  | .error e => ([container_log_filename], some e)
  | .ok inspect_log_filename =>
  match get_corecontainer_coredumps_logs env wa_container with
  | .error e => ([container_log_filename, inspect_log_filename], some e)
  | .ok core_dump_filename =>
  let acc := [container_log_filename, inspect_log_filename] ++ core_dump_filename.toList
  match get_webcontainer_logs env wa_container with
  | .error e => (acc, some e)
  | .ok (some webapp_log, some webapp_error_log) => (acc ++ [webapp_log, webapp_error_log], none)
  | .ok _ => (acc, none)

/-- The `(log_files, errors)` pair accumulated by `get_logs`'s loop over
`docker_utils.get_wa_containers()`: artifacts appended in iteration order,
and one `(wa_container.container, e)` pair per container whose collection
raised. -/
def get_logs_state (env : Env) (logs_start_dt logs_end_dt : Int) :
    List String × List (Container × PyExn) :=
  env.getWaContainers.foldl
    (fun acc wa_container =>
      let r := collect_container env logs_start_dt logs_end_dt wa_container
      (acc.1 ++ r.1,
       acc.2 ++ match r.2 with
                | some e => [(wa_container.container, e)]
                | none => []))
    ([], [])

/-- Models `str(err)` for the tuple `err = (wa_container.container, e)` used
in the aggregated message; the docker container object's repr is modelled by
its name and the exception's by its constructor name. -/
def py_str_exn : PyExn → String
  | .notFound => "NotFound"
  | .keyError => "KeyError"
  | .osError errno => "OSError " ++ toString errno
  | .fileAccessError msg => "FileAccessError: " ++ msg
  | .parseError => "ValueError"
  | .logsNotCompleteError msg => "LogsNotCompleteError: " ++ msg
  | .other msg => msg

def py_str_err_pair (err : Container × PyExn) : String :=
  "(" ++ err.1.name ++ ", " ++ py_str_exn err.2 ++ ")"

/-- The `LogsNotCompleteError` message: header plus one
`"Container: {name}\nException: {err}"` entry per recorded error, joined by
newlines. -/
def logs_not_complete_msg (errors : List (Container × PyExn)) : String :=
  "Some logs could not be obtained:\n" ++
    String.intercalate "\n"
      (errors.map (fun err => "Container: " ++ err.1.name ++ "\nException: " ++ py_str_err_pair err))

/-- `get_logs(logs_start_dt, logs_end_dt)`: iterate over all WA containers,
tolerating per-container exceptions; if any errors were recorded, raise
`LogsNotCompleteError` with the aggregated message; otherwise return the
artifact list (the source's final `[lf for lf in log_files if lf is not
None]` is the identity here, as every append in the loop is a guarded
non-`None` string). -/
def get_logs (env : Env) (logs_start_dt logs_end_dt : Int) :
    Except PyExn (List String) :=
  let st := get_logs_state env logs_start_dt logs_end_dt
  if st.2.isEmpty then .ok st.1
  else .error (.logsNotCompleteError (logs_not_complete_msg st.2))

/-- `get_support_info()`: the `try` covers configuration loading, the
truthiness test on the configuration, `WABizAPI(**config.get("webapp"))`
construction, and the API request; any exception there yields `None`, as does
an absent (falsy) configuration.  The final `docker_utils.write_to_file` of
the 2-space-indented JSON sits outside the `try`. -/
def get_support_info (env : Env) : Except PyExn (Option String) :=
  let support_info_filename := os_path_join OUTPUT_FOLDER SUPPORT_INFO_LOG_FILE
  let attempt : Except PyExn (Option String) := do
    let config ← env.configValues
    match config with
    | some cfg => do
        let api ← env.wabizApi (env.configGetWebapp cfg)
        let support_info_content ← env.apiGetSupportInfo api
        pure (some support_info_content)
    | none => pure none
  match attempt with
  | .error _ => .ok none
  | .ok none => .ok none
  | .ok (some support_info_content) =>
      match env.writeToFile support_info_filename (env.jsonDumps support_info_content 2) with
      | .error e => .error e
      | .ok _ => .ok (some support_info_filename)

/-- Milestone calls of `prepare_logs`, recorded when the call is made
(whatever its outcome). -/
inductive Event where
  | checkedAccess
  | resolvedWindow
  | ranGetLogs
  | calledGetSupportInfo
  | madeArchive
  | openedArchive
deriving DecidableEq, Repr

/-- `prepare_logs(logs_since, logs_since_format)`: access guard, time-window
resolution, `get_logs`, `get_support_info` (appending its artifact when
truthy), `shutil.make_archive`, and `open` of the produced archive.  Each
step's exception propagates, aborting the remaining steps; the event trace
records which calls were reached. -/
def prepare_logs (env : Env) (fs : FS) (logs_since : Option String)
    (logs_since_format : String) :
    Except PyExn (String × List String) × List Event :=
  let t0 := [Event.checkedAccess]
  match check_access fs with
  | .error e => (.error e, t0)
  | .ok _ =>
  let t1 := t0 ++ [Event.resolvedWindow]
  match get_container_logs_start_end_datetimes env.strptime env.now
      logs_since logs_since_format CONTAINER_LOG_DURATION_HOURS with
  | .error e => (.error e, t1)
  | .ok (logs_start_dt, logs_end_dt) =>
  let t2 := t1 ++ [Event.ranGetLogs]
  match get_logs env logs_start_dt logs_end_dt with
  | .error e => (.error e, t2)
  | .ok log_files =>
  let t3 := t2 ++ [Event.calledGetSupportInfo]
  match get_support_info env with
  | .error e => (.error e, t3)
  | .ok support_info_file =>
  let log_files :=
    if py_truthy_str support_info_file then log_files ++ support_info_file.toList
    else log_files
  let t4 := t3 ++ [Event.madeArchive]
  match env.makeArchive with
  | .error e => (.error e, t4)
  | .ok _ =>
  let t5 := t4 ++ [Event.openedArchive]
  match env.openArchive with
  | .error e => (.error e, t5)
  | .ok handle => (.ok (handle, log_files), t5)

/-! ### Concrete environments used to instantiate the theorems -/

/-- An environment in which every external call succeeds. -/
def okEnv : Env where
  getWaContainers := []
  getContainerLogs := fun _ _ _ => .ok "RAWLOGS"
  writeToFileInBinary := fun _ _ => .ok ()
  getInspectResult := fun _ => .ok "INSPECT"
  jsonDumps := fun v _ => v
  writeToFile := fun _ _ => .ok ()
  getCoreDumpLogs := fun _ => .ok "COREDUMP"
  getArchiveFromContainer := fun _ _ _ => .ok "ARCHIVE"
  configValues := .ok (some "cfg")
  configGetWebapp := fun _ => some "webappcfg"
  wabizApi := fun _ => .ok "api"
  apiGetSupportInfo := fun _ => .ok "supportinfo"
  strptime := fun _ _ => none
  now := 1000000
  makeArchive := .ok ()
  openArchive := .ok "ziphandle"

def goodC : Container := ⟨"good"⟩

def badC : Container := ⟨"bad"⟩

/-- Two generic containers, the second of which fails at its raw-log fetch. -/
def envMix : Env :=
  { okEnv with
    getWaContainers := [⟨goodC, false, false⟩, ⟨badC, false, false⟩]
    getContainerLogs := fun c _ _ =>
      if c.name = "bad" then .error (.other "boom") else .ok "RAWLOGS" }

def webC : Container := ⟨"web1"⟩

def webWC : WAContainer := ⟨webC, false, true⟩

/-- A web container for which the general web log is present but the
web-server error log copy raises `docker.errors.NotFound`. -/
def envOneWebFile : Env :=
  { okEnv with
    getWaContainers := [webWC]
    getArchiveFromContainer := fun _ path _ =>
      if path = WEB_LOG_PATH then .ok "WEBLOG" else .error .notFound }

def coreC : Container := ⟨"core1"⟩

def coreWC : WAContainer := ⟨coreC, true, false⟩

/-- A core container whose core-dump fetch signals unavailability by
raising. -/
def envCoreDumpRaise : Env :=
  { okEnv with
    getWaContainers := [coreWC]
    getCoreDumpLogs := fun _ => .error (.other "core dumps unavailable") }

/-- A core container whose core-dump fetch signals unavailability by
returning degenerate content instead of raising. -/
def envCoreDumpEmpty : Env :=
  { okEnv with
    getWaContainers := [coreWC]
    getCoreDumpLogs := fun _ => .ok "" }

/-- An environment where configuration loading, API construction and the
support-info request all succeed but every file write fails. -/
def envWriteFail : Env :=
  { okEnv with writeToFile := fun _ _ => .error (.osError 13) }

/-! ### Theorems -/

/-- C6: every window returned by `get_container_logs_start_end_datetimes`
satisfies `end - start = duration`; with no anchor the window is
`[now - duration, now]` (so `start = end - duration`), and with an anchor that
parses under the format the window is `[anchor, anchor + duration]`. -/
theorem C6_time_window_duration (strptime : String → String → Option Int)
    (now : Int) (start_dt_str : Option String) (dt_format : String)
    (duration_hours : Int) :
    (∀ s e, get_container_logs_start_end_datetimes strptime now start_dt_str
        dt_format duration_hours = .ok (s, e) →
        e - s = timedelta_hours duration_hours)
    ∧ get_container_logs_start_end_datetimes strptime now none dt_format
        duration_hours = .ok (now - timedelta_hours duration_hours, now)
    ∧ (∀ s dt, s ≠ "" → strptime s dt_format = some dt →
        get_container_logs_start_end_datetimes strptime now (some s) dt_format
          duration_hours = .ok (dt, dt + timedelta_hours duration_hours)) := by
  refine ⟨?_, ?_, ?_⟩
  · intro s e h
    unfold get_container_logs_start_end_datetimes at h
    cases start_dt_str with
    | none =>
      simp only [Except.ok.injEq, Prod.mk.injEq] at h
      omega
    | some a =>
      by_cases ha : a = ""
      · subst ha
        simp only [bne_self_eq_false, Bool.false_eq_true, if_false,
          Except.ok.injEq, Prod.mk.injEq] at h
        omega
      · simp only [ne_eq, ha, not_false_eq_true, bne_iff_ne, if_true,
          if_pos] at h
        cases hp : strptime a dt_format with
        | none => rw [hp] at h; cases h
        | some dt =>
          rw [hp] at h
          simp only [Except.ok.injEq, Prod.mk.injEq] at h
          omega
  · rfl
  · intro s dt hs hp
    unfold get_container_logs_start_end_datetimes
    simp [hs, hp]

/-- Witness for C6 at concrete inputs: an anchored call and an anchorless
call both produce a window of exactly the duration. -/
theorem C6_time_window_duration_witness :
    get_container_logs_start_end_datetimes
        (fun s _ => if s = "2020-01-01" then some 1577836800 else none) 99
        (some "2020-01-01") "%Y-%m-%d" 3
      = .ok (1577836800, 1577836800 + timedelta_hours 3)
    ∧ (5000 : Int) - (5000 - timedelta_hours 3) = timedelta_hours 3 := by
  refine ⟨?_, ?_⟩
  · exact (C6_time_window_duration
      (fun s _ => if s = "2020-01-01" then some 1577836800 else none) 99
      (some "2020-01-01") "%Y-%m-%d" 3).2.2 "2020-01-01" 1577836800
      (by decide) (by decide)
  · exact (C6_time_window_duration (fun _ _ => none) 5000 none "%Y-%m-%d" 3).1
      (5000 - timedelta_hours 3) 5000
      ((C6_time_window_duration (fun _ _ => none) 5000 none "%Y-%m-%d" 3).2.1)

/-- C7 counterexample: the claim quantifies over every anchor string that
does not match the format, but the empty string is falsy in Python, so the
source takes the "no anchor" branch and returns the now-window instead of
failing with ParseError. -/
theorem C7_claim_counterexample :
    (fun (_ _ : String) => (none : Option Int)) "" "%Y-%m-%d" = none
    ∧ get_container_logs_start_end_datetimes (fun _ _ => none) 0 (some "")
        "%Y-%m-%d" 3 = .ok (-10800, 0)
    ∧ get_container_logs_start_end_datetimes (fun _ _ => none) 0 (some "")
        "%Y-%m-%d" 3 ≠ .error .parseError := by
  refine ⟨rfl, rfl, fun h => ?_⟩
  exact Except.noConfusion h

/-- C7 (amended): every non-empty anchor string that does not match the
format makes the resolver fail with ParseError; an empty anchor is treated as
absent. -/
theorem C7_bad_anchor_parse_error (strptime : String → String → Option Int)
    (now : Int) (s dt_format : String) (duration_hours : Int)
    (hs : s ≠ "") (hp : strptime s dt_format = none) :
    get_container_logs_start_end_datetimes strptime now (some s) dt_format
      duration_hours = .error .parseError := by
  unfold get_container_logs_start_end_datetimes
  simp [hs, hp]

/-- Witness for C7 (amended) at a concrete unparsable non-empty anchor. -/
theorem C7_bad_anchor_parse_error_witness :
    get_container_logs_start_end_datetimes (fun _ _ => none) 0
      (some "garbage") "%Y-%m-%d" 3 = .error .parseError :=
  C7_bad_anchor_parse_error (fun _ _ => none) 0 "garbage" "%Y-%m-%d" 3
    (by decide) rfl

/-- C8: `check_access` fails with the cannot-read `FileAccessError` when the
working directory is unreadable; an already-existing output directory is
success; a creation failure with errno other than EEXIST is the cannot-write
`FileAccessError`; successful creation marks the directory existing; and a
second call after any successful call succeeds again. -/
theorem C8_check_access_spec (fs : FS) :
    (fs.cwdReadable = false →
      check_access fs
        = .error (.fileAccessError "Access error:  Cannot read from current directory"))
    ∧ (fs.cwdReadable = true → fs.outputDirExists = true →
        check_access fs = .ok fs)
    ∧ (∀ er, fs.cwdReadable = true → fs.outputDirExists = false →
        fs.mkdirFailErrno = some er → er ≠ EEXIST →
        check_access fs
          = .error (.fileAccessError "Access error:  Cannot write logs to current directory"))
    ∧ (fs.cwdReadable = true → fs.outputDirExists = false →
        fs.mkdirFailErrno = none →
        check_access fs = .ok { fs with outputDirExists := true })
    ∧ (∀ fs2, check_access fs = .ok fs2 → check_access fs2 = .ok fs2) := by
  obtain ⟨r, d, m⟩ := fs
  refine ⟨?_, ?_, ?_, ?_, ?_⟩
  · intro hr
    subst hr
    rfl
  · intro hr hd
    subst hr hd
    simp [check_access, os_makedirs]
  · intro er hr hd hm her
    subst hr hd hm
    simp [check_access, os_makedirs, her]
  · intro hr hd hm
    subst hr hd hm
    simp [check_access, os_makedirs]
  · intro fs2 h
    cases r with
    | false => simp [check_access] at h
    | true =>
      cases d with
      | true =>
        simp [check_access, os_makedirs] at h
        subst h
        simp [check_access, os_makedirs]
      | false =>
        cases m with
        | none =>
          simp [check_access, os_makedirs] at h
          subst h
          simp [check_access, os_makedirs]
        | some er =>
          by_cases her : er = EEXIST
          · subst her
            simp [check_access, os_makedirs] at h
            subst h
            simp [check_access, os_makedirs]
          · simp [check_access, os_makedirs, her] at h

/-- Witness for C8 at concrete filesystem states: creation, unreadable
directory, pre-existing directory, failing creation, and the second call
after a success. -/
theorem C8_check_access_spec_witness :
    check_access ⟨true, false, none⟩ = .ok ⟨true, true, none⟩
    ∧ check_access ⟨false, false, none⟩
        = .error (.fileAccessError "Access error:  Cannot read from current directory")
    ∧ check_access ⟨true, true, some 13⟩ = .ok ⟨true, true, some 13⟩
    ∧ check_access ⟨true, false, some 13⟩
        = .error (.fileAccessError "Access error:  Cannot write logs to current directory")
    ∧ check_access ⟨true, true, none⟩ = .ok ⟨true, true, none⟩ :=
  ⟨(C8_check_access_spec ⟨true, false, none⟩).2.2.2.1 rfl rfl rfl,
   (C8_check_access_spec ⟨false, false, none⟩).1 rfl,
   (C8_check_access_spec ⟨true, true, some 13⟩).2.1 rfl rfl,
   (C8_check_access_spec ⟨true, false, some 13⟩).2.2.1 13 rfl rfl rfl (by decide),
   (C8_check_access_spec ⟨true, false, none⟩).2.2.2.2 ⟨true, true, none⟩
     ((C8_check_access_spec ⟨true, false, none⟩).2.2.2.1 rfl rfl rfl)⟩

/-! Helper lemmas shared across the claim theorems. -/

theorem copy_additional_ok_name (env : Env) (container : Container)
    (path file_name p : String)
    (h : copy_additional_logs_for_webcontainer env container path file_name
        = .ok (some p)) :
    p = os_path_join OUTPUT_FOLDER (container.name ++ "-" ++ file_name) := by
  unfold copy_additional_logs_for_webcontainer at h
  cases ha : env.getArchiveFromContainer container path file_name with
  | error ex =>
    simp only [ha, Bind.bind, Except.bind] at h
    split at h <;> simp_all
  | ok logs =>
    simp only [ha, Bind.bind, Except.bind] at h
    cases hw : env.writeToFile
        (os_path_join OUTPUT_FOLDER (container.name ++ "-" ++ file_name)) logs with
    | error ex =>
      simp only [hw] at h
      split at h <;> simp_all
    | ok u =>
      simp only [hw, Pure.pure, Except.pure, Except.ok.injEq, Option.some.injEq] at h
      exact h.symm

theorem copy_additional_absent_none (env : Env) (container : Container)
    (path file_name : String) (ex : PyExn)
    (ha : env.getArchiveFromContainer container path file_name = .error ex)
    (he : ex = .keyError ∨ ex = .notFound) :
    copy_additional_logs_for_webcontainer env container path file_name
      = .ok none := by
  unfold copy_additional_logs_for_webcontainer
  simp only [ha, Bind.bind, Except.bind]
  simp [he]

theorem starts_with_slash_append_dash (n fn : String)
    (h : starts_with_slash n = false) :
    starts_with_slash (n ++ "-" ++ fn) = false := by
  unfold starts_with_slash at h ⊢
  rw [String.data_append, String.data_append]
  cases hd : n.data with
  | nil => simp
  | cons c cs =>
    simp only [hd] at h
    simpa using h

theorem os_path_join_output_folder (x : String)
    (hx : starts_with_slash x = false) :
    os_path_join OUTPUT_FOLDER x = "wadebug_logs/" ++ x := by
  unfold os_path_join OUTPUT_FOLDER
  rw [hx]
  have he : ends_with_slash "wadebug_logs" = false := by decide
  rw [he]
  simp only [Bool.false_eq_true, if_false]
  rfl

theorem get_logs_foldl (env : Env) (s e : Int) (l : List WAContainer)
    (a : List String) (b : List (Container × PyExn)) :
    l.foldl
      (fun acc wa_container =>
        let r := collect_container env s e wa_container
        (acc.1 ++ r.1,
         acc.2 ++ match r.2 with
                  | some ex => [(wa_container.container, ex)]
                  | none => []))
      (a, b)
      = (a ++ (l.map (fun wa => (collect_container env s e wa).1)).flatten,
         b ++ l.filterMap (fun wa =>
            (collect_container env s e wa).2.map (fun ex => (wa.container, ex)))) := by
  induction l generalizing a b with
  | nil => simp
  | cons hd tl ih =>
    simp only [List.foldl_cons, List.map_cons, List.flatten, List.filterMap_cons]
    rw [ih]
    cases hr : (collect_container env s e hd).2 <;>
      simp [hr, List.append_assoc]

theorem get_logs_state_eq (env : Env) (s e : Int) :
    get_logs_state env s e
      = ((env.getWaContainers.map (fun wa => (collect_container env s e wa).1)).flatten,
         env.getWaContainers.filterMap (fun wa =>
            (collect_container env s e wa).2.map (fun ex => (wa.container, ex)))) := by
  unfold get_logs_state
  rw [get_logs_foldl]
  simp

theorem get_logs_ok_of_no_errors (env : Env) (s e : Int)
    (h : (get_logs_state env s e).2 = []) :
    get_logs env s e = .ok (get_logs_state env s e).1 := by
  unfold get_logs
  simp [h]

theorem get_logs_error_of_errors (env : Env) (s e : Int)
    (h : (get_logs_state env s e).2 ≠ []) :
    get_logs env s e
      = .error (.logsNotCompleteError (logs_not_complete_msg (get_logs_state env s e).2)) := by
  unfold get_logs
  simp [h]

/-- C3 counterexample: with configuration present and the API request
succeeding but the support-info file write failing, `get_support_info`
propagates the write exception to its caller instead of returning None. -/
theorem C3_claim_counterexample :
    get_support_info envWriteFail = .error (.osError 13) := rfl

/-- C3 (amended): `get_support_info` returns None on absent configuration and
on any failure up to and including the API request; but a failure while
writing the support-info file (which sits outside the `try`) propagates to
the caller, and only on full success does it write the 2-space-indented JSON
and return the artifact name. -/
theorem C3_support_info_best_effort (env : Env) :
    (∀ ex, env.configValues = .error ex → get_support_info env = .ok none)
    ∧ (env.configValues = .ok none → get_support_info env = .ok none)
    ∧ (∀ cfg ex, env.configValues = .ok (some cfg) →
        env.wabizApi (env.configGetWebapp cfg) = .error ex →
        get_support_info env = .ok none)
    ∧ (∀ cfg api ex, env.configValues = .ok (some cfg) →
        env.wabizApi (env.configGetWebapp cfg) = .ok api →
        env.apiGetSupportInfo api = .error ex →
        get_support_info env = .ok none)
    ∧ (∀ cfg api content ex, env.configValues = .ok (some cfg) →
        env.wabizApi (env.configGetWebapp cfg) = .ok api →
        env.apiGetSupportInfo api = .ok content →
        env.writeToFile "wadebug_logs/support-info.log" (env.jsonDumps content 2)
          = .error ex →
        get_support_info env = .error ex)
    ∧ (∀ cfg api content, env.configValues = .ok (some cfg) →
        env.wabizApi (env.configGetWebapp cfg) = .ok api →
        env.apiGetSupportInfo api = .ok content →
        env.writeToFile "wadebug_logs/support-info.log" (env.jsonDumps content 2)
          = .ok () →
        get_support_info env = .ok (some "wadebug_logs/support-info.log")) := by
  refine ⟨?_, ?_, ?_, ?_, ?_, ?_⟩
  · intro ex h
    unfold get_support_info
    simp [h, Bind.bind, Except.bind]
  · intro h
    unfold get_support_info
    simp [h, Bind.bind, Except.bind, Pure.pure, Except.pure]
  · intro cfg ex h1 h2
    unfold get_support_info
    simp [h1, h2, Bind.bind, Except.bind]
  · intro cfg api ex h1 h2 h3
    unfold get_support_info
    simp [h1, h2, h3, Bind.bind, Except.bind]
  · intro cfg api content ex h1 h2 h3 h4
    unfold get_support_info
    simp only [h1, h2, h3, Bind.bind, Except.bind, Pure.pure, Except.pure]
    have hj : os_path_join OUTPUT_FOLDER SUPPORT_INFO_LOG_FILE
        = "wadebug_logs/support-info.log" := rfl
    rw [hj, h4]
  · intro cfg api content h1 h2 h3 h4
    unfold get_support_info
    simp only [h1, h2, h3, Bind.bind, Except.bind, Pure.pure, Except.pure]
    have hj : os_path_join OUTPUT_FOLDER SUPPORT_INFO_LOG_FILE
        = "wadebug_logs/support-info.log" := rfl
    rw [hj, h4]

/-- Witness for C3 (amended): absent configuration yields None; a fully
successful run writes and returns the support-info artifact. -/
theorem C3_support_info_best_effort_witness :
    get_support_info { okEnv with configValues := .ok none } = .ok none
    ∧ get_support_info okEnv = .ok (some "wadebug_logs/support-info.log") :=
  ⟨(C3_support_info_best_effort { okEnv with configValues := .ok none }).2.1 rfl,
   (C3_support_info_best_effort okEnv).2.2.2.2.2 "cfg" "api" "supportinfo"
     rfl rfl rfl rfl⟩

/-- C4 counterexample: with exactly one of the two web files present (the
general web log copies successfully, the error log raises NotFound), the
succeeding copy does return its artifact path, yet the `and`-guard in
`get_logs` appends neither file: the present file's artifact is missing from
the run's artifact list. -/
theorem C4_claim_counterexample :
    get_webcontainer_logs envOneWebFile webWC
        = .ok (some "wadebug_logs/web1-web.log", none)
    ∧ collect_container envOneWebFile 0 1 webWC
        = (["wadebug_logs/web1-container.log", "wadebug_logs/web1-inspect.log"], none)
    ∧ get_logs envOneWebFile 0 1
        = .ok ["wadebug_logs/web1-container.log", "wadebug_logs/web1-inspect.log"] :=
  ⟨rfl, rfl, rfl⟩

/-- C4 (amended): each copy attempt independently tolerates a
KeyError/NotFound failure by yielding None without error; but the two web
artifacts are appended to the artifact list only when both copies succeed —
when exactly one file is present its artifact is produced (the copy returns
its path) yet not appended. -/
theorem C4_web_copy_tolerance_and_guard (env : Env) (wa : WAContainer)
    (s e : Int) :
    (∀ container path file_name ex,
        env.getArchiveFromContainer container path file_name = .error ex →
        (ex = .keyError ∨ ex = .notFound) →
        copy_additional_logs_for_webcontainer env container path file_name
          = .ok none)
    ∧ (∀ f1 f2 ocd wl wel,
        get_container_logs env wa s e = .ok f1 →
        get_container_inspect_logs env wa = .ok f2 →
        get_corecontainer_coredumps_logs env wa = .ok ocd →
        get_webcontainer_logs env wa = .ok (wl, wel) →
        collect_container env s e wa
          = ([f1, f2] ++ ocd.toList
              ++ (match wl, wel with
                  | some a, some b => [a, b]
                  | _, _ => []), none)) := by
  constructor
  · intro container path file_name ex ha he
    exact copy_additional_absent_none env container path file_name ex ha he
  · intro f1 f2 ocd wl wel h1 h2 h3 h4
    unfold collect_container
    rw [h1, h2, h3, h4]
    rcases wl with _ | a <;> rcases wel with _ | b <;> simp

/-- Witness for C4 (amended) at the one-file-present environment: the absent
error log tolerates NotFound with None, and the artifact list gets no web
artifact because only one of the two copies succeeded. -/
theorem C4_web_copy_tolerance_and_guard_witness :
    copy_additional_logs_for_webcontainer envOneWebFile webC WEB_ERROR_LOG_PATH
        WEB_ERROR_LOG_PATH = .ok none
    ∧ collect_container envOneWebFile 0 1 webWC
        = (["wadebug_logs/web1-container.log", "wadebug_logs/web1-inspect.log"]
            ++ (none : Option String).toList ++ [], none) :=
  ⟨(C4_web_copy_tolerance_and_guard envOneWebFile webWC 0 1).1 webC
      WEB_ERROR_LOG_PATH WEB_ERROR_LOG_PATH .notFound rfl (Or.inr rfl),
   (C4_web_copy_tolerance_and_guard envOneWebFile webWC 0 1).2
      "wadebug_logs/web1-container.log" "wadebug_logs/web1-inspect.log" none
      (some "wadebug_logs/web1-web.log") none rfl rfl rfl rfl⟩

/-- C5: for a web container, the artifact produced for the web-server error
log is named from the container name and the path constant
`WEB_ERROR_LOG_PATH` — the container name, a dash, then `/var/log/lighttpd`,
under the output folder — not from the filename constant
`WEB_ERROR_LOG_FILE` (`error.log`), because the source passes the path
constant as the `file_name` argument. -/
theorem C5_web_error_log_artifact_name (env : Env) (wa : WAContainer)
    (a : Option String) (p : String) (hweb : wa.is_webapp = true)
    (h : get_webcontainer_logs env wa = .ok (a, some p)) :
    WEB_ERROR_LOG_PATH = "/var/log/lighttpd"
    ∧ WEB_ERROR_LOG_FILE = "error.log"
    ∧ p = os_path_join OUTPUT_FOLDER
        (wa.container.name ++ "-" ++ WEB_ERROR_LOG_PATH)
    ∧ (starts_with_slash wa.container.name = false →
        p = "wadebug_logs/" ++ wa.container.name ++ "-/var/log/lighttpd"
        ∧ p ≠ os_path_join OUTPUT_FOLDER
            (wa.container.name ++ "-" ++ WEB_ERROR_LOG_FILE)) := by
  have hp : p = os_path_join OUTPUT_FOLDER
      (wa.container.name ++ "-" ++ WEB_ERROR_LOG_PATH) := by
    unfold get_webcontainer_logs at h
    rw [hweb] at h
    simp only [if_true, Bind.bind, Except.bind] at h
    cases h1 : copy_additional_logs_for_webcontainer env wa.container
        WEB_LOG_PATH WEB_LOG_FILE with
    | error ex => rw [h1] at h; cases h
    | ok oa =>
      rw [h1] at h
      cases h2 : copy_additional_logs_for_webcontainer env wa.container
          WEB_ERROR_LOG_PATH WEB_ERROR_LOG_PATH with
      | error ex => rw [h2] at h; cases h
      | ok ob =>
        rw [h2] at h
        simp only [Pure.pure, Except.pure, Except.ok.injEq, Prod.mk.injEq] at h
        obtain ⟨ha, hb⟩ := h
        exact copy_additional_ok_name env wa.container WEB_ERROR_LOG_PATH
          WEB_ERROR_LOG_PATH p (hb ▸ h2)
  refine ⟨rfl, rfl, hp, ?_⟩
  intro hns
  have hs2 : starts_with_slash
      (wa.container.name ++ "-" ++ WEB_ERROR_LOG_PATH) = false :=
    starts_with_slash_append_dash wa.container.name WEB_ERROR_LOG_PATH hns
  have hs3 : starts_with_slash
      (wa.container.name ++ "-" ++ WEB_ERROR_LOG_FILE) = false :=
    starts_with_slash_append_dash wa.container.name WEB_ERROR_LOG_FILE hns
  have hpj : p = "wadebug_logs/"
      ++ (wa.container.name ++ "-" ++ WEB_ERROR_LOG_PATH) := by
    rw [hp, os_path_join_output_folder _ hs2]
  constructor
  · rw [hpj]
    have hd : ("-" : String) ++ "/var/log/lighttpd" = "-/var/log/lighttpd" := rfl
    rw [show WEB_ERROR_LOG_PATH = "/var/log/lighttpd" from rfl,
      String.append_assoc wa.container.name "-" "/var/log/lighttpd", hd,
      ← String.append_assoc "wadebug_logs/" wa.container.name "-/var/log/lighttpd"]
  · rw [hpj, os_path_join_output_folder _ hs3]
    intro heq
    have hlen := congrArg String.length heq
    simp only [String.length_append] at hlen
    have l1 : ("wadebug_logs/" : String).length = 13 := rfl
    have l2 : ("-" : String).length = 1 := rfl
    have l3 : WEB_ERROR_LOG_PATH.length = 17 := rfl
    have l4 : WEB_ERROR_LOG_FILE.length = 9 := rfl
    omega

/-- Witness for C5 at a concrete web container for which both copies
succeed. -/
theorem C5_web_error_log_artifact_name_witness :
    get_webcontainer_logs okEnv webWC
        = .ok (some "wadebug_logs/web1-web.log",
               some "wadebug_logs/web1-/var/log/lighttpd")
    ∧ ("wadebug_logs/web1-/var/log/lighttpd" : String)
        = "wadebug_logs/" ++ "web1" ++ "-/var/log/lighttpd"
    ∧ ("wadebug_logs/web1-/var/log/lighttpd" : String)
        ≠ os_path_join OUTPUT_FOLDER ("web1" ++ "-" ++ WEB_ERROR_LOG_FILE) := by
  have h : get_webcontainer_logs okEnv webWC
      = .ok (some "wadebug_logs/web1-web.log",
             some "wadebug_logs/web1-/var/log/lighttpd") := rfl
  have h2 := (C5_web_error_log_artifact_name okEnv webWC
      (some "wadebug_logs/web1-web.log") "wadebug_logs/web1-/var/log/lighttpd"
      rfl h).2.2.2 (by decide)
  exact ⟨h, h2.1, h2.2⟩

/-- C9 counterexample: the source has no skip path for a core container's
core-dump step.  If the external fetch signals unavailability by raising, a
CollectionError is recorded for the container (contradicting "no
CollectionError is recorded"); if it signals by returning degenerate content
without raising, the core-dump artifact is produced and appended
(contradicting "no core-dump artifact is produced"). -/
theorem C9_claim_counterexample :
    (get_logs_state envCoreDumpRaise 0 1).2
        = [(coreC, .other "core dumps unavailable")]
    ∧ get_corecontainer_coredumps_logs envCoreDumpEmpty coreWC
        = .ok (some "wadebug_logs/core1-coredump.log")
    ∧ (get_logs_state envCoreDumpEmpty 0 1).1
        = ["wadebug_logs/core1-container.log", "wadebug_logs/core1-inspect.log",
           "wadebug_logs/core1-coredump.log"] :=
  ⟨rfl, rfl, rfl⟩

/-- C9 (amended): for a core container the core-dump step is never skipped —
under every behaviour of the external fetch and write it either yields the
core-dump artifact (which `get_logs` appends) or raises (whence `get_logs`
records a CollectionError for the container); a non-core container never
yields a core-dump artifact. -/
theorem C9_coredump_no_skip (env : Env) (wa : WAContainer) :
    (wa.is_coreapp = true →
      get_corecontainer_coredumps_logs env wa
          = .ok (some (os_path_join OUTPUT_FOLDER
              (wa.container.name ++ "-coredump.log")))
        ∨ ∃ ex, get_corecontainer_coredumps_logs env wa = .error ex)
    ∧ (wa.is_coreapp = false →
        get_corecontainer_coredumps_logs env wa = .ok none) := by
  constructor
  · intro hc
    unfold get_corecontainer_coredumps_logs
    rw [hc]
    simp only [if_true, Bind.bind, Except.bind]
    cases hf : env.getCoreDumpLogs wa.container with
    | error ex => exact Or.inr ⟨ex, rfl⟩
    | ok res =>
      cases hw : env.writeToFile
          (os_path_join OUTPUT_FOLDER (wa.container.name ++ "-coredump.log")) res with
      | error ex => exact Or.inr ⟨ex, by simp [hw]⟩
      | ok u => exact Or.inl (by simp [hw, Pure.pure, Except.pure])
  · intro hc
    unfold get_corecontainer_coredumps_logs
    rw [hc]
    rfl

/-- Witness for C9 (amended) at concrete environments: a core container with
a raising fetch takes the error branch, one with a succeeding fetch yields
the artifact, and a non-core container yields none. -/
theorem C9_coredump_no_skip_witness :
    (get_corecontainer_coredumps_logs envCoreDumpRaise coreWC
          = .ok (some (os_path_join OUTPUT_FOLDER ("core1" ++ "-coredump.log")))
        ∨ ∃ ex, get_corecontainer_coredumps_logs envCoreDumpRaise coreWC
          = .error ex)
    ∧ get_corecontainer_coredumps_logs okEnv webWC = .ok none :=
  ⟨(C9_coredump_no_skip envCoreDumpRaise coreWC).1 rfl,
   (C9_coredump_no_skip okEnv webWC).2 rfl⟩

/-- C1: over the inventory, `get_logs` accumulates every container's
artifacts in iteration order (so all artifacts of the N−M succeeding
containers are produced) and records exactly one (container identity,
exception) pair per failing container; it raises a single aggregated
LogsNotCompleteError enumerating exactly those M pairs iff M > 0, and for
M = 0 it returns the artifact list normally. -/
theorem C1_partial_failure_aggregation (env : Env) (s e : Int) :
    (get_logs_state env s e).1
        = (env.getWaContainers.map
            (fun wa => (collect_container env s e wa).1)).flatten
    ∧ (get_logs_state env s e).2
        = env.getWaContainers.filterMap (fun wa =>
            (collect_container env s e wa).2.map (fun ex => (wa.container, ex)))
    ∧ ((get_logs_state env s e).2 = [] →
        get_logs env s e = .ok (get_logs_state env s e).1)
    ∧ ((get_logs_state env s e).2 ≠ [] →
        get_logs env s e
          = .error (.logsNotCompleteError
              (logs_not_complete_msg (get_logs_state env s e).2))) := by
  refine ⟨?_, ?_, get_logs_ok_of_no_errors env s e,
    get_logs_error_of_errors env s e⟩
  · rw [get_logs_state_eq]
  · rw [get_logs_state_eq]

/-- Witness for C1 at an inventory with one succeeding and one failing
container: the failing pair is recorded, the succeeding container's artifacts
are produced, and the aggregated error is raised; and at an empty inventory
the artifact list is returned normally. -/
theorem C1_partial_failure_aggregation_witness :
    get_logs envMix 0 1
        = .error (.logsNotCompleteError
            (logs_not_complete_msg [(badC, .other "boom")]))
    ∧ (get_logs_state envMix 0 1).1
        = ["wadebug_logs/good-container.log", "wadebug_logs/good-inspect.log"]
    ∧ get_logs okEnv 0 1 = .ok [] := by
  refine ⟨?_, rfl, ?_⟩
  · have h := (C1_partial_failure_aggregation envMix 0 1).2.2.2 (by decide)
    rw [show (get_logs_state envMix 0 1).2 = [(badC, .other "boom")] from rfl] at h
    exact h
  · have h := (C1_partial_failure_aggregation okEnv 0 1).2.2.1 rfl
    exact h

/-- C2 counterexample: in a run with a failing container, `get_logs` raises
inside `prepare_logs` before the `get_support_info()` call is reached, so
support-info collection is not attempted. -/
theorem C2_claim_counterexample :
    (prepare_logs envMix ⟨true, true, none⟩ none "%Y-%m-%d").1
        = .error (.logsNotCompleteError
            (logs_not_complete_msg [(badC, .other "boom")]))
    ∧ Event.calledGetSupportInfo
        ∉ (prepare_logs envMix ⟨true, true, none⟩ none "%Y-%m-%d").2 :=
  ⟨rfl, by decide⟩

/-- C2 (amended): `prepare_logs` invokes `get_support_info` iff the access
guard, the window resolution and `get_logs` all succeed; when any container
failed, the LogsNotCompleteError from `get_logs` propagates before
support-info collection is attempted. -/
theorem C2_support_info_only_without_container_errors (env : Env) (fs : FS)
    (ls : Option String) (fmt : String) (fs2 : FS) (sdt edt : Int)
    (hca : check_access fs = .ok fs2)
    (hw : get_container_logs_start_end_datetimes env.strptime env.now ls fmt
        CONTAINER_LOG_DURATION_HOURS = .ok (sdt, edt)) :
    (∀ ex, get_logs env sdt edt = .error ex →
        (prepare_logs env fs ls fmt).1 = .error ex
        ∧ Event.calledGetSupportInfo ∉ (prepare_logs env fs ls fmt).2)
    ∧ (∀ lfs, get_logs env sdt edt = .ok lfs →
        Event.calledGetSupportInfo ∈ (prepare_logs env fs ls fmt).2) := by
  constructor
  · intro ex hgl
    unfold prepare_logs
    simp only [hca, hw, hgl]
    refine ⟨trivial, by decide⟩
  · intro lfs hgl
    unfold prepare_logs
    simp only [hca, hw, hgl]
    cases hsi : get_support_info env with
    | error ex => simp [hsi]
    | ok o =>
      simp only [hsi]
      cases hma : env.makeArchive with
      | error ex => simp [hma]
      | ok u =>
        simp only [hma]
        cases hoa : env.openArchive with
        | error ex => simp [hoa]
        | ok hnd => simp [hoa]

/-- Witness for C2 (amended): with a failing container the error propagates
and support info is not attempted; with an empty inventory support info is
attempted. -/
theorem C2_support_info_only_without_container_errors_witness :
    ((prepare_logs envMix ⟨true, true, none⟩ none "%Y-%m-%d").1
        = .error (.logsNotCompleteError
            (logs_not_complete_msg (get_logs_state envMix 989200 1000000).2))
      ∧ Event.calledGetSupportInfo
          ∉ (prepare_logs envMix ⟨true, true, none⟩ none "%Y-%m-%d").2)
    ∧ Event.calledGetSupportInfo
        ∈ (prepare_logs okEnv ⟨true, true, none⟩ none "%Y-%m-%d").2 :=
  ⟨(C2_support_info_only_without_container_errors envMix ⟨true, true, none⟩
      none "%Y-%m-%d" ⟨true, true, none⟩ 989200 1000000 rfl rfl).1
      (.logsNotCompleteError
        (logs_not_complete_msg (get_logs_state envMix 989200 1000000).2))
      (get_logs_error_of_errors envMix 989200 1000000 (by decide)),
   (C2_support_info_only_without_container_errors okEnv ⟨true, true, none⟩
      none "%Y-%m-%d" ⟨true, true, none⟩ 989200 1000000 rfl rfl).2 []
      (get_logs_ok_of_no_errors okEnv 989200 1000000 rfl)⟩

/-- C10: whenever any container's collection failed, `prepare_logs`
propagates the LogsNotCompleteError raised by `get_logs` before the archive
step: `shutil.make_archive` and the archive `open` are never reached, and no
(archive handle, artifact list) pair is returned — the raise and the
production of the archive are mutually exclusive. -/
theorem C10_error_raise_excludes_archive (env : Env) (fs : FS)
    (ls : Option String) (fmt : String) (fs2 : FS) (sdt edt : Int)
    (hca : check_access fs = .ok fs2)
    (hw : get_container_logs_start_end_datetimes env.strptime env.now ls fmt
        CONTAINER_LOG_DURATION_HOURS = .ok (sdt, edt))
    (herr : (get_logs_state env sdt edt).2 ≠ []) :
    (prepare_logs env fs ls fmt).1
        = .error (.logsNotCompleteError
            (logs_not_complete_msg (get_logs_state env sdt edt).2))
    ∧ Event.madeArchive ∉ (prepare_logs env fs ls fmt).2
    ∧ Event.openedArchive ∉ (prepare_logs env fs ls fmt).2
    ∧ ∀ hnd lfs, (prepare_logs env fs ls fmt).1 ≠ .ok (hnd, lfs) := by
  have hgl := get_logs_error_of_errors env sdt edt herr
  unfold prepare_logs
  simp only [hca, hw, hgl]
  refine ⟨trivial, by decide, by decide, ?_⟩
  intro hnd lfs hcontra
  exact Except.noConfusion hcontra

/-- Witness for C10 at the mixed environment: the run with a failing
container raises and records no archive events. -/
theorem C10_error_raise_excludes_archive_witness :
    (prepare_logs envMix ⟨true, false, none⟩ none "%Y-%m-%d").1
        = .error (.logsNotCompleteError
            (logs_not_complete_msg (get_logs_state envMix 989200 1000000).2))
    ∧ Event.madeArchive
        ∉ (prepare_logs envMix ⟨true, false, none⟩ none "%Y-%m-%d").2 :=
  ⟨(C10_error_raise_excludes_archive envMix ⟨true, false, none⟩ none "%Y-%m-%d"
      ⟨true, true, none⟩ 989200 1000000 rfl rfl (by decide)).1,
   (C10_error_raise_excludes_archive envMix ⟨true, false, none⟩ none "%Y-%m-%d"
      ⟨true, true, none⟩ 989200 1000000 rfl rfl (by decide)).2.1⟩
